import Mathlib

/-!
Shallow embedding of `src/server.cjs` (Node/Express + better-sqlite3 API):
the faceted catalog/episode query engine.  JavaScript query parameters are
modelled as association lists of strings; SQLite rows as Lean structures with
`Option String` for nullable columns; the SQL each handler builds is modelled
clause-by-clause by executable Lean functions; a handler that can throw
(malformed generated SQL, missing required parameter) returns `Except`.
SQLite string comparison is modelled with the default BINARY collation, and
date parsing (`strftime`) for date-only ISO-8601 strings.
-/

namespace CbnApp

/-- JavaScript truthiness of an optional query-parameter string:
`undefined` and the empty string are falsy (as in `if (x)` in the source). -/
def truthy : Option String → Bool
  | none => false
  | some s => s ≠ ""

/-- Look a key up in a query map (Express `req.query`), `none` = absent. -/
def qget (q : List (String × String)) (k : String) : Option String :=
  (q.find? (fun p => p.1 == k)).map (·.2)

/-- JS `parseInt(s, 10)`: skip leading whitespace, optional sign, read a
maximal run of decimal digits; no digits gives NaN, modelled as `none`. -/
def parseIntJS (s : String) : Option Int :=
  let cs := s.toList.dropWhile (fun c => c = ' ' ∨ c = '\t' ∨ c = '\n' ∨ c = '\r')
  let (neg, cs) := match cs with
    | '-' :: rest => (true, rest)
    | '+' :: rest => (false, rest)
    | rest => (false, rest)
  let digits := cs.takeWhile Char.isDigit
  if digits.isEmpty then none
  else
    let n : Nat := digits.foldl (fun acc c => 10 * acc + (c.toNat - '0'.toNat)) 0
    some (if neg then -(n : Int) else (n : Int))

/-- JS `Math.min` on two numbers (the NaN case is handled at the `Option`
level by the caller). -/
def jsMin (a b : Int) : Int := if a ≤ b then a else b

/-- JS `Math.max` on two numbers. -/
def jsMax (a b : Int) : Int := if a ≤ b then b else a

/-- `paginated(req)` from the source:
`limit = Math.min(100, Math.max(1, parseInt(req.query.limit ?? "50", 10)))`,
`offset = Math.max(0, parseInt(req.query.offset ?? "0", 10))`.
`none` on either side stands for NaN (`Math.min`/`Math.max` propagate NaN). -/
def paginated (q : List (String × String)) : Option Int × Option Int :=
  let limit := (parseIntJS ((qget q "limit").getD "50")).map (fun x => jsMin 100 (jsMax 1 x))
  let offset := (parseIntJS ((qget q "offset").getD "0")).map (fun x => jsMax 0 x)
  (limit, offset)

/-- SQLite `TRIM(x)`: strip leading and trailing space characters. -/
def sqlTrim (s : String) : String :=
  String.mk (((s.toList.dropWhile (· = ' ')).reverse.dropWhile (· = ' ')).reverse)

/-- A nullable column is non-null and non-blank after trimming
(the SQL idiom `c IS NOT NULL AND TRIM(c) <> ''`). -/
def nonBlank : Option String → Bool
  | none => false
  | some s => sqlTrim s ≠ ""

/-- Days in a month of the Gregorian calendar, as SQLite's date logic uses. -/
def daysInMonth (y m : Nat) : Nat :=
  if m = 2 then
    if y % 4 = 0 ∧ (y % 100 ≠ 0 ∨ y % 400 = 0) then 29 else 28
  else if m = 4 ∨ m = 6 ∨ m = 9 ∨ m = 11 then 30
  else 31

/-- Parse a date-only ISO-8601 string `YYYY-MM-DD` the way SQLite's date
functions accept it: four digits, month `01`-`12`, day `01`-`31`; a day past
the end of the month rolls into the next month (SQLite normalisation,
e.g. `2023-02-31` is day 3 of March).  Anything else is `none` (NULL). -/
def parseISODate (s : String) : Option (Nat × Nat × Nat) :=
  match s.toList with
  | [y1, y2, y3, y4, '-', m1, m2, '-', d1, d2] =>
    if y1.isDigit ∧ y2.isDigit ∧ y3.isDigit ∧ y4.isDigit ∧
       m1.isDigit ∧ m2.isDigit ∧ d1.isDigit ∧ d2.isDigit then
      let y := 1000 * (y1.toNat - 48) + 100 * (y2.toNat - 48) + 10 * (y3.toNat - 48) + (y4.toNat - 48)
      let m := 10 * (m1.toNat - 48) + (m2.toNat - 48)
      let d := 10 * (d1.toNat - 48) + (d2.toNat - 48)
      if 1 ≤ m ∧ m ≤ 12 ∧ 1 ≤ d ∧ d ≤ 31 then
        if d ≤ daysInMonth y m then some (y, m, d)
        else some (y, m + 1, d - daysInMonth y m)
      else none
    else none
  | _ => none

/-- Zero-pad a number to `w` digits, as `strftime` formats year and month. -/
def padNum (w n : Nat) : String :=
  let s := toString n
  String.mk (List.replicate (w - s.length) '0') ++ s

/-- SQLite `strftime('%Y', s)`: the four-digit year, NULL if unparseable. -/
def strftimeY (s : String) : Option String :=
  (parseISODate s).map (fun t => padNum 4 t.1)

/-- SQLite `strftime('%m', s)`: the two-digit month, NULL if unparseable. -/
def strftimeM (s : String) : Option String :=
  (parseISODate s).map (fun t => padNum 2 t.2.1)

/-- `strftime` applied to a nullable column (NULL in, NULL out). -/
def strftimeOpt (f : String → Option String) : Option String → Option String
  | none => none
  | some s => f s

/-- Lexicographic order on character lists; on UTF-8 encoded text this is
exactly SQLite's BINARY collation order (UTF-8 byte order agrees with
code-point order). -/
def charListLe : List Char → List Char → Bool
  | [], _ => true
  | _ :: _, [] => false
  | a :: as, b :: bs => if a = b then charListLe as bs else decide (a < b)

/-- SQLite BINARY string order. -/
def strLe (a b : String) : Bool := charListLe a.toList b.toList

/-- SQLite ascending order on a nullable text column (`ORDER BY 1`):
NULL sorts before every string, strings compare bytewise. -/
def optLe : Option String → Option String → Bool
  | none, _ => true
  | some _, none => false
  | some a, some b => strLe a b

/-- `SELECT DISTINCT v ... ORDER BY v ASC` over already-filtered values. -/
def distinctAsc (l : List String) : List String :=
  l.dedup.insertionSort (fun a b => strLe a b = true)

/-- `SELECT DISTINCT v ... ORDER BY v DESC` over already-filtered values. -/
def distinctDesc (l : List String) : List String :=
  l.dedup.insertionSort (fun a b => strLe b a = true)

/-- Distinct nullable values in SQLite ascending order (NULL first). -/
def distinctOptAsc (l : List (Option String)) : List (Option String) :=
  l.dedup.insertionSort (fun a b => optLe a b = true)

/-- Distinct nullable values in SQLite descending order (NULL last). -/
def distinctOptDesc (l : List (Option String)) : List (Option String) :=
  l.dedup.insertionSort (fun a b => optLe b a = true)

/-- JS `.filter(Boolean)` applied after `.map(r => r.v)`: keep only values
that are neither `null` nor the empty string, extracting the strings. -/
def jsFilterTruthy (l : List (Option String)) : List String :=
  l.filterMap (fun v => if truthy v then v else none)

/-- `LIMIT @limit OFFSET @offset` with the pair `paginated` produced.
A NaN (`none`) is bound by the driver as SQL NULL: `LIMIT NULL` imposes no
bound and `OFFSET NULL` none either (modelled; the storage engine is an
external collaborator). -/
def applyPage {α : Type} (p : Option Int × Option Int) (l : List α) : List α :=
  let rest := l.drop (p.2.getD 0).toNat
  match p.1 with
  | none => rest
  | some n => rest.take n.toNat

/-- An HTTP handler failure: a 400 validation rejection or a caught
exception reported as a 500 (`res.status(500).json({error})`). -/
inductive ApiErr where
  | validation (msg : String)
  | storage (msg : String)
deriving DecidableEq, Repr

/-! ## ENZ dataset (`ENZ_EPS` table) -/

/-- A row of the `ENZ_EPS` table; nullable columns are `Option String`,
`id` is the storage-assigned rowid. -/
structure EnzRow where
  id : Nat
  Video_Title : Option String
  Upload_Date : Option String
  Telecast_date : Option String
  Youtube_Links : Option String
  ESS_CODE : Option String
deriving DecidableEq, Repr

/-- The WHERE clause of the `/enz` query: always requires non-null,
non-blank `Telecast_date` and `Youtube_Links`; adds
`strftime('%Y', Telecast_date) = @year` when a truthy `year` is given and
`strftime('%m', Telecast_date) = @month` when a truthy `month` is given
(SQL `NULL = x` is not satisfied). -/
def enzWhere (year month : Option String) (r : EnzRow) : Bool :=
  nonBlank r.Telecast_date && nonBlank r.Youtube_Links &&
  (!truthy year || strftimeOpt strftimeY r.Telecast_date == some (year.getD "")) &&
  (!truthy month || strftimeOpt strftimeM r.Telecast_date == some (month.getD ""))

/-- The `/enz` result set before LIMIT/OFFSET:
filtered rows ordered by `Telecast_date DESC`. -/
def enzRows (db : List EnzRow) (year month : Option String) : List EnzRow :=
  (db.filter (enzWhere year month)).insertionSort
    (fun a b => optLe b.Telecast_date a.Telecast_date = true)

/-- External row shape of `/enz` (the SELECT column aliases). -/
structure EnzOut where
  id : Nat
  title : Option String
  uploadDate : Option String
  telecastDate : Option String
  youtubeUrl : Option String
  ESS_CODE : Option String
deriving DecidableEq, Repr

/-- Column aliasing of the `/enz` SELECT list. -/
def projectEnz (r : EnzRow) : EnzOut :=
  ⟨r.id, r.Video_Title, r.Upload_Date, r.Telecast_date, r.Youtube_Links, r.ESS_CODE⟩

/-- The `/enz` handler (`listEpisodes`): filter, sort, paginate, project. -/
def enzHandler (db : List EnzRow) (q : List (String × String)) : List EnzOut :=
  (applyPage (paginated q)
    (enzRows db (qget q "year") (qget q "month"))).map projectEnz

/-- The `/enz/years` handler (`listEpisodeYears`): group the non-blank-date,
non-blank-link rows by `strftime('%Y', Telecast_date)`, order the group keys
descending, then JS `.map(r => r.y).filter(Boolean)` drops the NULL group. -/
def enzYears (db : List EnzRow) : List String :=
  jsFilterTruthy (distinctOptDesc
    ((db.filter (fun r => nonBlank r.Telecast_date && nonBlank r.Youtube_Links)).map
      (fun r => strftimeOpt strftimeY r.Telecast_date)))

/-- The month list of `/enz/months` for a given year string: group the
non-blank-date, matching-year, non-blank-link rows by
`strftime('%m', Telecast_date)` descending, dropping the NULL group. -/
def enzMonths (db : List EnzRow) (year : String) : List String :=
  jsFilterTruthy (distinctOptDesc
    ((db.filter (fun r => nonBlank r.Telecast_date &&
        strftimeOpt strftimeY r.Telecast_date == some year &&
        nonBlank r.Youtube_Links)).map
      (fun r => strftimeOpt strftimeM r.Telecast_date)))

/-- Modelled from the spec: the function `monthName` is called by the
`/enz/months` handler in `src/server.cjs` but its definition is not under
`src/`.  The spec fixes it as a static 12-entry mapping
"01"→"January" … "12"→"December" whose behaviour on out-of-range or
malformed month codes is identity (echo the raw code), never an error. -/
def monthName (mm : String) : String :=
  if mm = "01" then "January"
  else if mm = "02" then "February"
  else if mm = "03" then "March"
  else if mm = "04" then "April"
  else if mm = "05" then "May"
  else if mm = "06" then "June"
  else if mm = "07" then "July"
  else if mm = "08" then "August"
  else if mm = "09" then "September"
  else if mm = "10" then "October"
  else if mm = "11" then "November"
  else if mm = "12" then "December"
  else mm

/-- The two result shapes of `/enz/months`: bare month codes, or
`{value, name}` objects when `names === '1'`. -/
inductive MonthsOut where
  | plain (months : List String)
  | withNames (months : List (String × String))
deriving DecidableEq, Repr

/-- The `/enz/months` handler (`listEpisodeMonths`): a falsy `year`
parameter is rejected with 400 "year is required" before any query runs;
otherwise the month list is computed and, when `names === '1'`, paired
with `monthName`. -/
def enzMonthsHandler (db : List EnzRow) (q : List (String × String)) :
    Except ApiErr MonthsOut :=
  let year := qget q "year"
  if !truthy year then Except.error (ApiErr.validation "year is required")
  else
    let months := enzMonths db (year.getD "")
    if qget q "names" == some "1" then
      Except.ok (MonthsOut.withNames (months.map (fun mm => (mm, monthName mm))))
    else Except.ok (MonthsOut.plain months)

/-! ## CBNYT dataset (`YT_tbl` table) -/

/-- A row of the `YT_tbl` table. -/
structure CbnRow where
  id : Nat
  Video_Title : Option String
  Segment_Language : Option String
  Ministry_Category : Option String
  Church_Name : Option String
  Church_State : Option String
  Youtube_Links : Option String
  Upload_Date : Option String
deriving DecidableEq, Repr

/-- SQLite `col LIKE '%term%'`: NULL column never matches; otherwise
ASCII-case-insensitive substring containment (modelled for terms without
`%`/`_` metacharacters, which the source always wraps verbatim). -/
def sqlLikeContains : Option String → String → Bool
  | none, _ => false
  | some s, t => decide ((t.toList.map Char.toUpper) <:+: (s.toList.map Char.toUpper))

/-- The WHERE clause of `/videos`: one exact-equality conjunct per truthy
facet (default BINARY collation: case- and whitespace-sensitive), plus the
`(Video_Title LIKE @q OR Church_Name LIKE @q)` disjunction for `q`. -/
def videosWhere (cat lang st church qterm : Option String) (r : CbnRow) : Bool :=
  (!truthy cat || r.Ministry_Category == some (cat.getD "")) &&
  (!truthy lang || r.Segment_Language == some (lang.getD "")) &&
  (!truthy st || r.Church_State == some (st.getD "")) &&
  (!truthy church || r.Church_Name == some (church.getD "")) &&
  (!truthy qterm || sqlLikeContains r.Video_Title (qterm.getD "") ||
     sqlLikeContains r.Church_Name (qterm.getD ""))

/-- External row shape of `/videos` (the SELECT column aliases). -/
structure VideoOut where
  id : Nat
  title : Option String
  language : Option String
  category : Option String
  churchName : Option String
  youtubeUrl : Option String
  uploadDate : Option String
deriving DecidableEq, Repr

/-- Column aliasing of the `/videos` SELECT list. -/
def projectVideo (r : CbnRow) : VideoOut :=
  ⟨r.id, r.Video_Title, r.Segment_Language, r.Ministry_Category,
   r.Church_Name, r.Youtube_Links, r.Upload_Date⟩

/-- The `/videos` result set before LIMIT/OFFSET:
filtered rows ordered by `Upload_Date DESC`. -/
def videosRows (db : List CbnRow) (cat lang st church qterm : Option String) :
    List CbnRow :=
  (db.filter (videosWhere cat lang st church qterm)).insertionSort
    (fun a b => optLe b.Upload_Date a.Upload_Date = true)

/-- The `/videos` handler (`listCatalog`): the category facet is read as
`Ministry_Category ?? category` (nullish coalescing), then filter, sort,
paginate, project. -/
def videosHandler (db : List CbnRow) (q : List (String × String)) :
    List VideoOut :=
  let pickedCategory := qget q "Ministry_Category" <|> qget q "category"
  (applyPage (paginated q)
    (videosRows db pickedCategory (qget q "language") (qget q "state")
      (qget q "church") (qget q "q"))).map projectVideo

/-- The `languages` query of `/filters`: distinct `Segment_Language` over
the category-scoped rows — with NO blank or NULL exclusion — in SQLite
ascending order (NULL first). -/
def filtersLangs (db : List CbnRow) (cat : Option String) : List (Option String) :=
  distinctOptAsc
    ((db.filter (fun r => !truthy cat || r.Ministry_Category == some (cat.getD ""))).map
      (·.Segment_Language))

/-- The `states` query of `/filters` and of `/filters/states` (both build
the same predicate): distinct non-null, non-blank `Church_State` over rows
matching the truthy category and language facets, ascending. -/
def filtersStates (db : List CbnRow) (cat lang : Option String) : List String :=
  distinctAsc
    ((db.filter (fun r =>
        (!truthy cat || r.Ministry_Category == some (cat.getD "")) &&
        (!truthy lang || r.Segment_Language == some (lang.getD "")) &&
        nonBlank r.Church_State)).filterMap (·.Church_State))

/-- The `churches` query of `/filters` and of `/filters/churches`: distinct
non-null, non-blank `Church_Name` over rows matching the truthy category,
language and state facets, ascending. -/
def filtersChurches (db : List CbnRow) (cat lang st : Option String) : List String :=
  distinctAsc
    ((db.filter (fun r =>
        (!truthy cat || r.Ministry_Category == some (cat.getD "")) &&
        (!truthy lang || r.Segment_Language == some (lang.getD "")) &&
        (!truthy st || r.Church_State == some (st.getD "")) &&
        nonBlank r.Church_Name)).filterMap (·.Church_Name))

/-- The `/filters` response shape. -/
structure FiltersOut where
  languages : List (Option String)
  states : List String
  churches : List String
deriving DecidableEq, Repr

/-- The `/filters` handler (`listFacets`).  The `states` SQL interpolates
its facet conditions but the literal text continues
`AND Church_State IS NOT NULL AND TRIM(Church_State) <> ''`; when neither
category nor language is truthy the interpolation is empty and the
statement reads `... FROM YT_tbl AND ...` — a syntax error thrown at
prepare time and caught as a 500.  The `churches` SQL appends the same way
to `baseWhere` (built from category, language and state), so whenever the
states statement prepares, the churches statement does too. -/
def filtersHandler (db : List CbnRow) (q : List (String × String)) :
    Except ApiErr FiltersOut :=
  let cat := qget q "Ministry_Category"
  let lang := qget q "language"
  let st := qget q "state"
  if truthy cat || truthy lang then
    Except.ok ⟨filtersLangs db cat, filtersStates db cat lang,
               filtersChurches db cat lang st⟩
  else Except.error (ApiErr.storage "SqliteError: near \x22AND\x22: syntax error")

/-- The `/filters/states` handler: its WHERE list always starts with the
non-blank condition, so it is well-formed for every input and returns the
same state set as the `states` query of `/filters`. -/
def filtersStatesHandler (db : List CbnRow) (q : List (String × String)) :
    List String :=
  filtersStates db (qget q "Ministry_Category") (qget q "language")

/-- The `/filters/churches` handler: always well-formed, same predicate as
the `churches` query of `/filters`. -/
def filtersChurchesHandler (db : List CbnRow) (q : List (String × String)) :
    List String :=
  filtersChurches db (qget q "Ministry_Category") (qget q "language")
    (qget q "state")

/-! ## Sample rows used by concrete witnesses and counterexamples -/

/-- A playable Hindi choir row. -/
def rowHindi : CbnRow :=
  ⟨1, some "v1", some "Hindi", some "Choirs in concert", some "Grace Church",
   some "Punjab", some "u1", some "2020-01-01"⟩

/-- A playable Tamil choir row with a later upload date. -/
def rowTamil : CbnRow :=
  ⟨2, some "v2", some "Tamil", some "Choirs in concert", some "Hope Church",
   some "Kerala", some "u2", some "2020-01-02"⟩

/-- A row in a non-choir category that nevertheless carries a state and a
church name, and whose language value is blank. -/
def rowSermon : CbnRow :=
  ⟨3, some "v3", some "", some "Sermons", some "First Church",
   some "Punjab", some "u3", some "2020-01-03"⟩

/-- An eligible episode: valid telecast date and a YouTube link. -/
def epGood : EnzRow := ⟨2, some "ep2", none, some "2023-07-15", some "url", some "E1"⟩

/-- An episode whose telecast date is non-blank but not a parseable date. -/
def epBadDate : EnzRow := ⟨1, some "ep1", some "2023-01-01", some "nonsense", some "url", none⟩

/-- An episode with a valid telecast date but no YouTube link. -/
def epNoLink : EnzRow := ⟨3, some "ep3", none, some "2023-11-02", none, none⟩

/-! ## Membership lemmas for the query combinators -/

theorem mem_applyPage {α : Type} {p : Option Int × Option Int} {l : List α}
    {x : α} (h : x ∈ applyPage p l) : x ∈ l := by
  unfold applyPage at h
  cases hp : p.1 with
  | none => rw [hp] at h; exact List.mem_of_mem_drop h
  | some n => rw [hp] at h; exact List.mem_of_mem_drop (List.mem_of_mem_take h)

theorem mem_distinctAsc {l : List String} {x : String} :
    x ∈ distinctAsc l ↔ x ∈ l := by
  unfold distinctAsc
  rw [List.mem_insertionSort, List.mem_dedup]

theorem mem_distinctOptAsc {l : List (Option String)} {x : Option String} :
    x ∈ distinctOptAsc l ↔ x ∈ l := by
  unfold distinctOptAsc
  rw [List.mem_insertionSort, List.mem_dedup]

theorem mem_distinctOptDesc {l : List (Option String)} {x : Option String} :
    x ∈ distinctOptDesc l ↔ x ∈ l := by
  unfold distinctOptDesc
  rw [List.mem_insertionSort, List.mem_dedup]

theorem mem_jsFilterTruthy {l : List (Option String)} {s : String} :
    s ∈ jsFilterTruthy l ↔ some s ∈ l ∧ s ≠ "" := by
  unfold jsFilterTruthy
  rw [List.mem_filterMap]
  constructor
  · rintro ⟨v, hv, he⟩
    by_cases ht : truthy v = true
    · rw [if_pos ht] at he
      subst he
      refine ⟨hv, ?_⟩
      simpa [truthy] using ht
    · rw [if_neg ht] at he
      exact absurd he (by simp)
  · rintro ⟨hv, hs⟩
    exact ⟨some s, hv, by simp [truthy, hs]⟩

theorem mem_enzRows {db : List EnzRow} {year month : Option String} {r : EnzRow} :
    r ∈ enzRows db year month ↔ r ∈ db ∧ enzWhere year month r = true := by
  unfold enzRows
  rw [List.mem_insertionSort, List.mem_filter]

theorem mem_videosRows {db : List CbnRow} {cat lang st church qterm : Option String}
    {r : CbnRow} :
    r ∈ videosRows db cat lang st church qterm ↔
      r ∈ db ∧ videosWhere cat lang st church qterm r = true := by
  unfold videosRows
  rw [List.mem_insertionSort, List.mem_filter]

theorem mem_filtersLangs {db : List CbnRow} {cat : Option String} {v : Option String} :
    v ∈ filtersLangs db cat ↔
      ∃ r, r ∈ db ∧
        (truthy cat = true → r.Ministry_Category = some (cat.getD "")) ∧
        r.Segment_Language = v := by
  unfold filtersLangs
  rw [mem_distinctOptAsc, List.mem_map]
  constructor
  · rintro ⟨r, hr, rfl⟩
    rw [List.mem_filter] at hr
    refine ⟨r, hr.1, ?_, rfl⟩
    intro ht
    have := hr.2
    simp [ht] at this
    exact this
  · rintro ⟨r, hr, hcat, rfl⟩
    refine ⟨r, List.mem_filter.mpr ⟨hr, ?_⟩, rfl⟩
    by_cases ht : truthy cat = true
    · simp [ht, hcat ht]
    · simp [Bool.not_eq_true] at ht
      simp [ht]

theorem mem_filtersStates {db : List CbnRow} {cat lang : Option String} {s : String} :
    s ∈ filtersStates db cat lang ↔
      ∃ r, r ∈ db ∧
        (truthy cat = true → r.Ministry_Category = some (cat.getD "")) ∧
        (truthy lang = true → r.Segment_Language = some (lang.getD "")) ∧
        r.Church_State = some s ∧ sqlTrim s ≠ "" := by
  unfold filtersStates
  rw [mem_distinctAsc, List.mem_filterMap]
  constructor
  · rintro ⟨r, hr, hs⟩
    rw [List.mem_filter] at hr
    have hw := hr.2
    simp only [Bool.and_eq_true, Bool.or_eq_true, Bool.not_eq_true',
      beq_iff_eq] at hw
    refine ⟨r, hr.1, ?_, ?_, hs, ?_⟩
    · intro ht
      rcases hw.1.1 with h | h
      · rw [ht] at h; cases h
      · exact h
    · intro ht
      rcases hw.1.2 with h | h
      · rw [ht] at h; cases h
      · exact h
    · have := hw.2
      rw [hs] at this
      simpa [nonBlank] using this
  · rintro ⟨r, hr, hcat, hlang, hs, htrim⟩
    refine ⟨r, List.mem_filter.mpr ⟨hr, ?_⟩, hs⟩
    simp only [Bool.and_eq_true, Bool.or_eq_true, Bool.not_eq_true', beq_iff_eq]
    refine ⟨⟨?_, ?_⟩, ?_⟩
    · by_cases ht : truthy cat = true
      · exact Or.inr (hcat ht)
      · exact Or.inl (by simpa [Bool.not_eq_true] using ht)
    · by_cases ht : truthy lang = true
      · exact Or.inr (hlang ht)
      · exact Or.inl (by simpa [Bool.not_eq_true] using ht)
    · rw [hs]
      simpa [nonBlank] using htrim

theorem mem_filtersChurches {db : List CbnRow} {cat lang st : Option String}
    {n : String} :
    n ∈ filtersChurches db cat lang st ↔
      ∃ r, r ∈ db ∧
        (truthy cat = true → r.Ministry_Category = some (cat.getD "")) ∧
        (truthy lang = true → r.Segment_Language = some (lang.getD "")) ∧
        (truthy st = true → r.Church_State = some (st.getD "")) ∧
        r.Church_Name = some n ∧ sqlTrim n ≠ "" := by
  unfold filtersChurches
  rw [mem_distinctAsc, List.mem_filterMap]
  constructor
  · rintro ⟨r, hr, hs⟩
    rw [List.mem_filter] at hr
    have hw := hr.2
    simp only [Bool.and_eq_true, Bool.or_eq_true, Bool.not_eq_true',
      beq_iff_eq] at hw
    refine ⟨r, hr.1, ?_, ?_, ?_, hs, ?_⟩
    · intro ht
      rcases hw.1.1.1 with h | h
      · rw [ht] at h; cases h
      · exact h
    · intro ht
      rcases hw.1.1.2 with h | h
      · rw [ht] at h; cases h
      · exact h
    · intro ht
      rcases hw.1.2 with h | h
      · rw [ht] at h; cases h
      · exact h
    · have := hw.2
      rw [hs] at this
      simpa [nonBlank] using this
  · rintro ⟨r, hr, hcat, hlang, hst, hs, htrim⟩
    refine ⟨r, List.mem_filter.mpr ⟨hr, ?_⟩, hs⟩
    simp only [Bool.and_eq_true, Bool.or_eq_true, Bool.not_eq_true', beq_iff_eq]
    refine ⟨⟨⟨?_, ?_⟩, ?_⟩, ?_⟩
    · by_cases ht : truthy cat = true
      · exact Or.inr (hcat ht)
      · exact Or.inl (by simpa [Bool.not_eq_true] using ht)
    · by_cases ht : truthy lang = true
      · exact Or.inr (hlang ht)
      · exact Or.inl (by simpa [Bool.not_eq_true] using ht)
    · by_cases ht : truthy st = true
      · exact Or.inr (hst ht)
      · exact Or.inl (by simpa [Bool.not_eq_true] using ht)
    · rw [hs]
      simpa [nonBlank] using htrim

/-- When the category or language facet is truthy, every statement of
`/filters` prepares and the handler returns the three distinct-value
lists. -/
theorem filtersHandler_ok {db : List CbnRow} {q : List (String × String)}
    (h : (truthy (qget q "Ministry_Category") || truthy (qget q "language")) = true) :
    filtersHandler db q = Except.ok
      ⟨filtersLangs db (qget q "Ministry_Category"),
       filtersStates db (qget q "Ministry_Category") (qget q "language"),
       filtersChurches db (qget q "Ministry_Category") (qget q "language")
         (qget q "state")⟩ := by
  simp [filtersHandler, h]

/-- Dropping the language selection can only widen the state query's row
scope: the distinct state set is monotone under removing the facet. -/
theorem filtersStates_mono (db : List CbnRow) (cat lang : Option String) :
    filtersStates db cat lang ⊆ filtersStates db cat none := by
  intro s hs
  rw [mem_filtersStates] at hs ⊢
  obtain ⟨r, hr, hcat, _, hst, htrim⟩ := hs
  exact ⟨r, hr, hcat, fun h => by simp [truthy] at h, hst, htrim⟩

/-! ## Claim theorems -/

/-- C1 (counterexample): an EpisodeRecord whose `telecastDate` is non-blank
but does not parse to a valid calendar date (so the claim calls it
ineligible) still appears in the `/enz` listing when no year/month facet is
given: the WHERE clause only checks non-blankness, not parseability. -/
theorem enz_unparseable_date_listed :
    strftimeOpt strftimeY epBadDate.Telecast_date = none ∧
    nonBlank epBadDate.Telecast_date = true ∧
    nonBlank epBadDate.Youtube_Links = true ∧
    enzHandler [epBadDate] [] = [projectEnz epBadDate] := by
  refine ⟨by decide, by decide, by decide, by decide⟩

/-- C1 (amended): rows with an absent-or-blank `Telecast_date` or
absent-or-blank `Youtube_Links` never surface through `/enz`, `/enz/years`
or `/enz/months`; rows whose non-blank `Telecast_date` fails to parse are
excluded whenever a year or month facet is selected and never contribute a
year or month, but parseability is NOT required by the unfiltered `/enz`
listing. -/
theorem enz_eligibility_amended :
    (∀ (db : List EnzRow) (q : List (String × String)) (x : EnzOut),
       x ∈ enzHandler db q →
       ∃ r, r ∈ db ∧ x = projectEnz r ∧ nonBlank r.Telecast_date = true ∧
         nonBlank r.Youtube_Links = true) ∧
    (∀ (db : List EnzRow) (r : EnzRow),
       r ∈ enzRows db none none ↔
         r ∈ db ∧ nonBlank r.Telecast_date = true ∧
           nonBlank r.Youtube_Links = true) ∧
    (∀ (db : List EnzRow) (year month : Option String) (r : EnzRow),
       truthy year = true → r ∈ enzRows db year month →
       strftimeOpt strftimeY r.Telecast_date = some (year.getD "")) ∧
    (∀ (db : List EnzRow) (year month : Option String) (r : EnzRow),
       truthy month = true → r ∈ enzRows db year month →
       strftimeOpt strftimeM r.Telecast_date = some (month.getD "")) ∧
    (∀ (db : List EnzRow) (y : String), y ∈ enzYears db →
       ∃ r, r ∈ db ∧ nonBlank r.Telecast_date = true ∧
         nonBlank r.Youtube_Links = true ∧
         strftimeOpt strftimeY r.Telecast_date = some y) ∧
    (∀ (db : List EnzRow) (yr m : String), m ∈ enzMonths db yr →
       ∃ r, r ∈ db ∧ nonBlank r.Telecast_date = true ∧
         nonBlank r.Youtube_Links = true ∧
         strftimeOpt strftimeY r.Telecast_date = some yr ∧
         strftimeOpt strftimeM r.Telecast_date = some m) := by
  refine ⟨?_, ?_, ?_, ?_, ?_, ?_⟩
  · intro db q x hx
    unfold enzHandler at hx
    rw [List.mem_map] at hx
    obtain ⟨r, hr, rfl⟩ := hx
    have hm := mem_applyPage hr
    rw [mem_enzRows] at hm
    have hw := hm.2
    simp only [enzWhere, Bool.and_eq_true] at hw
    exact ⟨r, hm.1, rfl, hw.1.1.1, hw.1.1.2⟩
  · intro db r
    rw [mem_enzRows]
    simp [enzWhere, truthy, and_assoc]
  · intro db year month r ht hr
    rw [mem_enzRows] at hr
    have hw := hr.2
    simp only [enzWhere, Bool.and_eq_true, Bool.or_eq_true, Bool.not_eq_true',
      beq_iff_eq] at hw
    rcases hw.1.2 with h | h
    · rw [ht] at h; cases h
    · exact h
  · intro db year month r ht hr
    rw [mem_enzRows] at hr
    have hw := hr.2
    simp only [enzWhere, Bool.and_eq_true, Bool.or_eq_true, Bool.not_eq_true',
      beq_iff_eq] at hw
    rcases hw.2 with h | h
    · rw [ht] at h; cases h
    · exact h
  · intro db y hy
    unfold enzYears at hy
    rw [mem_jsFilterTruthy, mem_distinctOptDesc, List.mem_map] at hy
    obtain ⟨⟨r, hr, hmap⟩, -⟩ := hy
    rw [List.mem_filter] at hr
    have hw := hr.2
    simp only [Bool.and_eq_true] at hw
    exact ⟨r, hr.1, hw.1, hw.2, hmap⟩
  · intro db yr m hm
    unfold enzMonths at hm
    rw [mem_jsFilterTruthy, mem_distinctOptDesc, List.mem_map] at hm
    obtain ⟨⟨r, hr, hmap⟩, -⟩ := hm
    rw [List.mem_filter] at hr
    have hw := hr.2
    simp only [Bool.and_eq_true, beq_iff_eq] at hw
    exact ⟨r, hr.1, hw.1.1, hw.2, hw.1.2, hmap⟩

/-- C1 witness: the amended theorem's first conjunct applied to the output
of `/enz` over a one-row dataset with an eligible episode. -/
theorem enz_eligibility_amended_witness :
    ∃ r, r ∈ [epGood] ∧ projectEnz epGood = projectEnz r ∧
      nonBlank r.Telecast_date = true ∧ nonBlank r.Youtube_Links = true :=
  enz_eligibility_amended.1 [epGood] [] (projectEnz epGood) (by decide)

/-- C2 (counterexample): `/videos` compares `Segment_Language` with plain
SQLite `=` under the default BINARY collation, so `language=Hindi` and
`language=HINDI` — two requests differing only in letter case — return
different row sets over a dataset holding one Hindi row. -/
theorem videos_language_case_sensitive :
    videosHandler [rowHindi] [("language", "Hindi")] = [projectVideo rowHindi] ∧
    videosHandler [rowHindi] [("language", "HINDI")] = [] ∧
    [projectVideo rowHindi] ≠ ([] : List VideoOut) := by
  refine ⟨by decide, by decide, by decide⟩

/-- C2 (amended): the language facet of `/videos` filters by exact
(case- and whitespace-sensitive) string equality: a row is in the result
set of a request with a truthy language value exactly when it is in the
result set of the same request without the language facet and its
`Segment_Language` equals the parameter string byte-for-byte. -/
theorem videos_language_exact_equality :
    ∀ (db : List CbnRow) (cat st church qterm : Option String) (lang : String)
      (r : CbnRow), lang ≠ "" →
      (r ∈ videosRows db cat (some lang) st church qterm ↔
        r ∈ videosRows db cat none st church qterm ∧
          r.Segment_Language = some lang) := by
  intro db cat st church qterm lang r h
  have ht : truthy (some lang) = true := by simp [truthy, h]
  rw [mem_videosRows, mem_videosRows]
  unfold videosWhere
  rw [ht]
  simp only [truthy, Bool.not_true, Bool.false_or, Bool.not_false, Bool.true_or,
    Bool.and_eq_true, beq_iff_eq, Option.getD_some]
  tauto

/-- C2 witness: the amended theorem at a one-row Hindi dataset and the
exact language value "Hindi". -/
theorem videos_language_exact_equality_witness :
    rowHindi ∈ videosRows [rowHindi] none (some "Hindi") none none none ↔
      rowHindi ∈ videosRows [rowHindi] none none none none none ∧
        rowHindi.Segment_Language = some "Hindi" :=
  videos_language_exact_equality [rowHindi] none none none none "Hindi" rowHindi
    (by decide)

/-- C3 (counterexample): a `/filters` request with zero facet selections
does not succeed — the generated states SQL reads `FROM YT_tbl AND ...`
and throws at prepare time — and even with a category selected, a blank
language value surfaces in the returned `languages` list. -/
theorem filters_no_facets_fails :
    filtersHandler [rowSermon] [] =
      Except.error (ApiErr.storage "SqliteError: near \x22AND\x22: syntax error") ∧
    filtersHandler [rowSermon] [("Ministry_Category", "Sermons")] =
      Except.ok ⟨[some ""], ["Punjab"], ["First Church"]⟩ ∧
    sqlTrim "" = "" := by
  refine ⟨rfl, rfl, rfl⟩

/-- C3 (amended): with zero truthy facet selections `/filters` fails with a
caught storage error (malformed generated SQL); when the category or
language facet is truthy it succeeds and its `languages` list is the full
distinct `Segment_Language` value set over the scoped rows with NO
exclusion of blank (or NULL) values. -/
theorem filters_failure_and_blank_languages :
    (∀ (db : List CbnRow) (q : List (String × String)),
       (truthy (qget q "Ministry_Category") || truthy (qget q "language")) = false →
       ∃ msg, filtersHandler db q = Except.error (ApiErr.storage msg)) ∧
    (∀ (db : List CbnRow) (q : List (String × String)),
       (truthy (qget q "Ministry_Category") || truthy (qget q "language")) = true →
       ∃ out, filtersHandler db q = Except.ok out ∧
         ∀ v, v ∈ out.languages ↔
           ∃ r, r ∈ db ∧
             (truthy (qget q "Ministry_Category") = true →
               r.Ministry_Category = some ((qget q "Ministry_Category").getD "")) ∧
             r.Segment_Language = v) := by
  constructor
  · intro db q h
    refine ⟨"SqliteError: near \x22AND\x22: syntax error", ?_⟩
    simp [filtersHandler, h]
  · intro db q h
    exact ⟨_, filtersHandler_ok h, fun v => mem_filtersLangs⟩

/-- C3 witness: the amended theorem's success conjunct at a category-only
request over a one-row dataset whose language is blank. -/
theorem filters_failure_and_blank_languages_witness :
    ∃ out, filtersHandler [rowSermon] [("Ministry_Category", "Sermons")] =
        Except.ok out ∧
      ∀ v, v ∈ out.languages ↔
        ∃ r, r ∈ [rowSermon] ∧
          (truthy (qget [("Ministry_Category", "Sermons")] "Ministry_Category") = true →
            r.Ministry_Category =
              some ((qget [("Ministry_Category", "Sermons")] "Ministry_Category").getD "")) ∧
          r.Segment_Language = v :=
  filters_failure_and_blank_languages.2 [rowSermon]
    [("Ministry_Category", "Sermons")] (by decide)

/-- C4 (counterexample): `/filters` applies no category gating: for the
category "Sermons" — not the regionally-structured "Choirs in concert" —
the returned states and churches lists are computed from the data and come
back non-empty, where the claim requires them empty. -/
theorem filters_no_category_gating :
    filtersHandler [rowSermon] [("Ministry_Category", "Sermons")] =
      Except.ok ⟨[some ""], ["Punjab"], ["First Church"]⟩ ∧
    "Sermons" ≠ "Choirs in concert" ∧
    (["Punjab"] : List String) ≠ [] ∧ (["First Church"] : List String) ≠ [] := by
  refine ⟨rfl, by decide, by decide, by decide⟩

/-- C4 (amended): the states and churches lists of `/filters` are computed
by the same cascading distinct-value queries for EVERY category value, with
no special-casing of "Choirs in concert": for any category `c` the states
list holds exactly the non-blank `Church_State` values of the rows of that
category, and likewise for churches — the lists are never forced empty for
a non-choir category. -/
theorem filters_states_churches_ungated :
    ∀ (db : List CbnRow) (c : String), c ≠ "" →
      ∃ out, filtersHandler db [("Ministry_Category", c)] = Except.ok out ∧
        (∀ s, s ∈ out.states ↔ ∃ r, r ∈ db ∧ r.Ministry_Category = some c ∧
            r.Church_State = some s ∧ sqlTrim s ≠ "") ∧
        (∀ n, n ∈ out.churches ↔ ∃ r, r ∈ db ∧ r.Ministry_Category = some c ∧
            r.Church_Name = some n ∧ sqlTrim n ≠ "") := by
  intro db c h
  have ht : truthy (some c) = true := by simp [truthy, h]
  have hq : (truthy (qget [("Ministry_Category", c)] "Ministry_Category") ||
      truthy (qget [("Ministry_Category", c)] "language")) = true := by
    show (truthy (some c) || truthy (none : Option String)) = true
    rw [ht]
    rfl
  refine ⟨_, filtersHandler_ok hq, ?_, ?_⟩
  · intro s
    show s ∈ filtersStates db (some c) none ↔ _
    rw [mem_filtersStates]
    constructor
    · rintro ⟨r, hr, hcat, -, hst, htr⟩
      exact ⟨r, hr, hcat ht, hst, htr⟩
    · rintro ⟨r, hr, hcat, hst, htr⟩
      exact ⟨r, hr, fun _ => hcat, fun hl => by simp [truthy] at hl, hst, htr⟩
  · intro n
    show n ∈ filtersChurches db (some c) none none ↔ _
    rw [mem_filtersChurches]
    constructor
    · rintro ⟨r, hr, hcat, -, -, hn, htr⟩
      exact ⟨r, hr, hcat ht, hn, htr⟩
    · rintro ⟨r, hr, hcat, hn, htr⟩
      exact ⟨r, hr, fun _ => hcat, fun hl => by simp [truthy] at hl,
        fun hs => by simp [truthy] at hs, hn, htr⟩

/-- C4 witness: the amended theorem at the non-choir category "Sermons"
over a one-row dataset carrying a state and a church name. -/
theorem filters_states_churches_ungated_witness :
    ∃ out, filtersHandler [rowSermon] [("Ministry_Category", "Sermons")] =
        Except.ok out ∧
      (∀ s, s ∈ out.states ↔ ∃ r, r ∈ [rowSermon] ∧
          r.Ministry_Category = some "Sermons" ∧
          r.Church_State = some s ∧ sqlTrim s ≠ "") ∧
      (∀ n, n ∈ out.churches ↔ ∃ r, r ∈ [rowSermon] ∧
          r.Ministry_Category = some "Sermons" ∧
          r.Church_Name = some n ∧ sqlTrim n ≠ "") :=
  filters_states_churches_ungated [rowSermon] "Sermons" (by decide)

/-- C5: with a truthy year and `names=1`, `/enz/months` succeeds and every
returned month is the pair of the raw two-digit value with `monthName` of
it; `monthName` maps "01"…"12" to the English full month names and is the
identity on every other string, so the name lookup never fails.
(`monthName` is modelled from the spec: its definition is absent from
`src/`, only its call site is present.) -/
theorem months_names_mapping :
    (∀ (db : List EnzRow) (q : List (String × String)),
       truthy (qget q "year") = true → qget q "names" = some "1" →
       ∃ ms, enzMonthsHandler db q = Except.ok (MonthsOut.withNames ms) ∧
         ∀ p ∈ ms, p.2 = monthName p.1) ∧
    (monthName "01" = "January" ∧ monthName "02" = "February" ∧
     monthName "03" = "March" ∧ monthName "04" = "April" ∧
     monthName "05" = "May" ∧ monthName "06" = "June" ∧
     monthName "07" = "July" ∧ monthName "08" = "August" ∧
     monthName "09" = "September" ∧ monthName "10" = "October" ∧
     monthName "11" = "November" ∧ monthName "12" = "December") ∧
    (∀ s : String,
       s ∉ ["01", "02", "03", "04", "05", "06", "07", "08", "09", "10", "11", "12"] →
       monthName s = s) := by
  refine ⟨?_, ?_, ?_⟩
  · intro db q hy hn
    refine ⟨(enzMonths db ((qget q "year").getD "")).map
      (fun mm => (mm, monthName mm)), ?_, ?_⟩
    · simp [enzMonthsHandler, hy, hn]
    · intro p hp
      rw [List.mem_map] at hp
      obtain ⟨mm, -, rfl⟩ := hp
      rfl
  · refine ⟨rfl, rfl, rfl, rfl, rfl, rfl, rfl, rfl, rfl, rfl, rfl, rfl⟩
  · intro s hs
    simp only [List.mem_cons, List.not_mem_nil, or_false, not_or] at hs
    obtain ⟨h1, h2, h3, h4, h5, h6, h7, h8, h9, h10, h11, h12⟩ := hs
    simp [monthName, h1, h2, h3, h4, h5, h6, h7, h8, h9, h10, h11, h12]

/-- C5 witness: the mapping conjunct applied to a concrete request
`year=2023&names=1` over a one-episode dataset. -/
theorem months_names_mapping_witness :
    ∃ ms, enzMonthsHandler [epGood] [("year", "2023"), ("names", "1")] =
        Except.ok (MonthsOut.withNames ms) ∧
      ∀ p ∈ ms, p.2 = monthName p.1 :=
  months_names_mapping.1 [epGood] [("year", "2023"), ("names", "1")]
    (by decide) (by decide)

/-- C6: cascading narrowing is monotone for the state facet: the state set
of a category+language request is a subset of the state set of the same
category-only request, both for the `states` query of `/filters` and for
the `/filters/states` endpoint. -/
theorem states_narrowing_monotone :
    (∀ (db : List CbnRow) (cat lang : Option String),
       filtersStates db cat lang ⊆ filtersStates db cat none) ∧
    (∀ (db : List CbnRow) (C L : String), C ≠ "" →
       ∃ o1 o2,
         filtersHandler db [("Ministry_Category", C), ("language", L)] =
           Except.ok o1 ∧
         filtersHandler db [("Ministry_Category", C)] = Except.ok o2 ∧
         o1.states ⊆ o2.states) ∧
    (∀ (db : List CbnRow) (C L : String),
       filtersStatesHandler db [("Ministry_Category", C), ("language", L)] ⊆
         filtersStatesHandler db [("Ministry_Category", C)]) := by
  refine ⟨filtersStates_mono, ?_, ?_⟩
  · intro db C L h
    have ht : truthy (some C) = true := by simp [truthy, h]
    have hq1 : (truthy (qget [("Ministry_Category", C), ("language", L)]
          "Ministry_Category") ||
        truthy (qget [("Ministry_Category", C), ("language", L)] "language")) =
          true := by
      show (truthy (some C) || truthy (some L)) = true
      rw [ht]
      rfl
    have hq2 : (truthy (qget [("Ministry_Category", C)] "Ministry_Category") ||
        truthy (qget [("Ministry_Category", C)] "language")) = true := by
      show (truthy (some C) || truthy (none : Option String)) = true
      rw [ht]
      rfl
    exact ⟨_, _, filtersHandler_ok hq1, filtersHandler_ok hq2,
      filtersStates_mono db (some C) (some L)⟩
  · intro db C L
    exact filtersStates_mono db (some C) (some L)

/-- C6 witness: the endpoint conjunct at a concrete choir dataset,
category "Choirs in concert" and language "Hindi". -/
theorem states_narrowing_monotone_witness :
    ∃ o1 o2,
      filtersHandler [rowHindi, rowTamil]
          [("Ministry_Category", "Choirs in concert"), ("language", "Hindi")] =
        Except.ok o1 ∧
      filtersHandler [rowHindi, rowTamil]
          [("Ministry_Category", "Choirs in concert")] = Except.ok o2 ∧
      o1.states ⊆ o2.states :=
  states_narrowing_monotone.2.1 [rowHindi, rowTamil] "Choirs in concert" "Hindi"
    (by decide)

/-- C7 (counterexample): the claim says a request carrying `page=2` and
`limit=1` returns the rows at offset `(2-1)*1 = 1`; the code ignores `page`
entirely, uses offset 0, and returns the first row of the ordering instead
of the second. -/
theorem paginated_ignores_page :
    videosHandler [rowHindi, rowTamil] [("page", "2"), ("limit", "1")] =
      [projectVideo rowTamil] ∧
    paginated [("page", "2"), ("limit", "1")] = (some 1, some 0) ∧
    projectVideo rowTamil ≠ projectVideo rowHindi := by
  refine ⟨by decide, by decide, by decide⟩

/-- C7 (amended): the paginator supports only the `limit`+`offset` input
shape; a `page` parameter is never consulted, so a request carrying `page`
and `limit` (and no `offset`) uses offset 0, not `(page-1)*limit`. -/
theorem paginated_limit_offset_only :
    (∀ p l : String, paginated [("page", p), ("limit", l)] =
      ((parseIntJS l).map (fun x => jsMin 100 (jsMax 1 x)), some 0)) ∧
    (∀ l o : String, paginated [("limit", l), ("offset", o)] =
      ((parseIntJS l).map (fun x => jsMin 100 (jsMax 1 x)),
       (parseIntJS o).map (fun x => jsMax 0 x))) := by
  exact ⟨fun p l => rfl, fun l o => rfl⟩

/-- C8 (counterexample): the claim says a non-numeric `limit` yields the
documented default 50; in the code `parseInt("abc")` is NaN and
`Math.min`/`Math.max` propagate it, so the effective limit is NaN (`none`),
not an integer in `[1, 100]`. -/
theorem paginated_nan_limit :
    paginated [("limit", "abc")] = (none, some 0) ∧
    (none : Option Int) ≠ some 50 := by
  refine ⟨by decide, by decide⟩

/-- C8 (amended): whenever the limit string (default "50") parses as a JS
integer the effective limit is clamped into `[1, 100]` (≥101 gives exactly
100, ≤0 gives exactly 1, missing gives 50), and whenever the offset string
(default "0") parses the effective offset is `max 0` of it; but a present
limit or offset with no numeric prefix yields NaN (`none`), not the
default. -/
theorem paginated_bounds_amended :
    (∀ (q : List (String × String)) (n : Int),
       parseIntJS ((qget q "limit").getD "50") = some n →
       (paginated q).1 = some (jsMin 100 (jsMax 1 n)) ∧
       1 ≤ jsMin 100 (jsMax 1 n) ∧ jsMin 100 (jsMax 1 n) ≤ 100 ∧
       (101 ≤ n → jsMin 100 (jsMax 1 n) = 100) ∧
       (n ≤ 0 → jsMin 100 (jsMax 1 n) = 1)) ∧
    (∀ (q : List (String × String)) (n : Int),
       parseIntJS ((qget q "offset").getD "0") = some n →
       (paginated q).2 = some (jsMax 0 n) ∧ 0 ≤ jsMax 0 n) ∧
    (∀ q : List (String × String), qget q "limit" = none →
       (paginated q).1 = some 50) ∧
    (∀ q : List (String × String), qget q "offset" = none →
       (paginated q).2 = some 0) ∧
    (∀ (q : List (String × String)) (s : String), qget q "limit" = some s →
       parseIntJS s = none → (paginated q).1 = none) ∧
    (∀ (q : List (String × String)) (s : String), qget q "offset" = some s →
       parseIntJS s = none → (paginated q).2 = none) := by
  refine ⟨?_, ?_, ?_, ?_, ?_, ?_⟩
  · intro q n h
    refine ⟨by simp [paginated, h], ?_, ?_, ?_, ?_⟩ <;>
      simp only [jsMin, jsMax] <;> split_ifs <;> omega
  · intro q n h
    refine ⟨by simp [paginated, h], ?_⟩
    simp only [jsMax]
    split_ifs <;> omega
  · intro q h
    simp only [paginated, h, Option.getD]
    rfl
  · intro q h
    simp only [paginated, h, Option.getD]
    rfl
  · intro q s h hn
    simp [paginated, h, hn]
  · intro q s h hn
    simp [paginated, h, hn]

/-- C8 witness: the amended clamp conjunct applied at the concrete request
`limit=200`, whose parse succeeds with 200 and clamps to 100. -/
theorem paginated_bounds_amended_witness :
    (paginated [("limit", "200")]).1 = some (jsMin 100 (jsMax 1 200)) ∧
    1 ≤ jsMin 100 (jsMax 1 200) ∧ jsMin 100 (jsMax 1 200) ≤ 100 ∧
    (101 ≤ (200 : Int) → jsMin 100 (jsMax 1 200) = 100) ∧
    ((200 : Int) ≤ 0 → jsMin 100 (jsMax 1 200) = 1) :=
  paginated_bounds_amended.1 [("limit", "200")] 200 rfl

/-- C9: `listEpisodeMonths` (`/enz/months`) with the `year` parameter absent
returns the 400 ValidationError "year is required" — never a success value
and never an empty list — and the result does not depend on the stored
data, so no storage query is consulted. -/
theorem months_missing_year_validation :
    ∀ (db : List EnzRow) (q : List (String × String)), qget q "year" = none →
      enzMonthsHandler db q = Except.error (ApiErr.validation "year is required") := by
  intro db q h
  simp [enzMonthsHandler, h, truthy]

/-- C9 witness: the theorem applied at an empty query over a non-empty
dataset. -/
theorem months_missing_year_validation_witness :
    enzMonthsHandler [epGood] [] =
      Except.error (ApiErr.validation "year is required") :=
  months_missing_year_validation [epGood] [] rfl

/-- C10: `/videos` accepts the category facet under both the
`Ministry_Category` and the `category` query key: a request supplying only
`category` returns the same rows as the same request supplying the value
under `Ministry_Category` (with remaining recognized keys equal), and when
both keys are supplied the `Ministry_Category` value wins
(`Ministry_Category ?? category`). -/
theorem videos_category_key_aliasing :
    (∀ (db : List CbnRow) (v : String),
       videosHandler db [("category", v)] =
       videosHandler db [("Ministry_Category", v)]) ∧
    (∀ (db : List CbnRow) (v lang st church term lim off : String),
       videosHandler db
         [("category", v), ("language", lang), ("state", st),
          ("church", church), ("q", term), ("limit", lim), ("offset", off)] =
       videosHandler db
         [("Ministry_Category", v), ("language", lang), ("state", st),
          ("church", church), ("q", term), ("limit", lim), ("offset", off)]) ∧
    (∀ (db : List CbnRow) (m c lang st church term lim off : String),
       videosHandler db
         [("Ministry_Category", m), ("category", c), ("language", lang),
          ("state", st), ("church", church), ("q", term), ("limit", lim),
          ("offset", off)] =
       videosHandler db
         [("Ministry_Category", m), ("language", lang), ("state", st),
          ("church", church), ("q", term), ("limit", lim), ("offset", off)]) := by
  exact ⟨fun db v => rfl, fun db v lang st church term lim off => rfl,
    fun db m c lang st church term lim off => rfl⟩

end CbnApp
